import Mathlib

/-!
Shallow embedding of the Live View backend core (Python) for verification.

Source files modelled:
- backend/shared/models/enums.py        (MatchPhase, Tier)
- backend/ingest/normalization/normalizer.py
    (NormalizationService.normalize_scoreboard / normalize_events)
- backend/builder/service.py            (ReconciliationEngine.reconcile,
    BuilderService._persist_synthetic_events)
- backend/verifier/confidence.py        (compute_confidence)
- backend/shared/utils/redis_manager.py (presence / subscriber-count keys,
    stream helpers)
- backend/api/ws/manager.py             (WebSocketManager._handle_subscribe,
    _send_replay)
- backend/scheduler/service.py          (tiers_to_poll selection)

Python ints are modelled as Int (scores) or Nat (versions, sequence numbers,
counters); optional values as Option; the Redis store as a typed association
list; UUID validity as an abstract boolean predicate supplied by the caller.
-/

namespace LiveView

/-- `MatchPhase` from shared/models/enums.py. One constructor per member. -/
inductive Phase
  | scheduled
  | preMatch
  | liveFirstHalf
  | liveHalftime
  | liveSecondHalf
  | liveExtraTime
  | livePenalties
  | liveQ1
  | liveQ2
  | liveQ3
  | liveQ4
  | liveOT
  | liveP1
  | liveP2
  | liveP3
  | liveInning
  | breakPhase
  | suspended
  | finished
  | postponed
  | cancelled
  deriving DecidableEq, Repr, Fintype

/-- The `.value` string of each `MatchPhase` member. -/
def Phase.value : Phase → String
  | .scheduled => "scheduled"
  | .preMatch => "pre_match"
  | .liveFirstHalf => "live_first_half"
  | .liveHalftime => "live_halftime"
  | .liveSecondHalf => "live_second_half"
  | .liveExtraTime => "live_extra_time"
  | .livePenalties => "live_penalties"
  | .liveQ1 => "live_q1"
  | .liveQ2 => "live_q2"
  | .liveQ3 => "live_q3"
  | .liveQ4 => "live_q4"
  | .liveOT => "live_ot"
  | .liveP1 => "live_p1"
  | .liveP2 => "live_p2"
  | .liveP3 => "live_p3"
  | .liveInning => "live_inning"
  | .breakPhase => "break"
  | .suspended => "suspended"
  | .finished => "finished"
  | .postponed => "postponed"
  | .cancelled => "cancelled"

/-- Python `str.startswith`, as a structural character-list prefix test
(semantically the test `String.startsWith` performs). -/
def strStartsWith (s pre : String) : Bool :=
  pre.data.isPrefixOf s.data

/-- `MatchPhase.is_live`: value starts with "live_" or the phase is BREAK. -/
def Phase.is_live (p : Phase) : Bool :=
  strStartsWith p.value "live_" || p == Phase.breakPhase

/-- `MatchPhase.is_terminal`: FINISHED, POSTPONED or CANCELLED. -/
def Phase.is_terminal (p : Phase) : Bool :=
  p == Phase.finished || p == Phase.postponed || p == Phase.cancelled

/-- `Tier` from shared/models/enums.py (int enum 0/1/2). -/
inductive Tier
  | scoreboard
  | events
  | stats
  deriving DecidableEq, Repr, Fintype

/-- The integer value of a `Tier` member. -/
def Tier.value : Tier → Int
  | .scoreboard => 0
  | .events => 1
  | .stats => 2

/-- `Tier(tier_val)` with the surrounding try/except ValueError: `none`
models the ValueError branch taken for any value outside 0, 1, 2. -/
def Tier.ofIntOpt (v : Int) : Option Tier :=
  if v == 0 then some Tier.scoreboard
  else if v == 1 then some Tier.events
  else if v == 2 then some Tier.stats
  else none

/-- `tiers_to_poll` selection in SchedulerService._reconcile_tasks:
always tier 0, plus tiers 1 and 2 for a live phase. -/
def tiersToPoll (p : Phase) : List Tier :=
  let base := [Tier.scoreboard]
  if p.is_live then base ++ [Tier.events, Tier.stats] else base

/-- A `match_state` row (MatchStateORM columns touched by normalization). -/
structure MatchState where
  score_home : Int
  score_away : Int
  score_breakdown : List String
  clock : Option String
  phase : String
  version : Nat
  seq : Nat
  deriving DecidableEq, Repr

/-- The incoming `MatchScoreboard` payload fields read by the normalizer
(shared/models/domain.py): score.home, score.away, score.breakdown,
phase, clock. -/
structure Scoreboard where
  score_home : Int
  score_away : Int
  breakdown : List String
  phase : Phase
  clock : Option String
  deriving DecidableEq, Repr

/-- The `changed` test of normalize_scoreboard: any difference in the
(score_home, score_away, phase, clock) tuple. -/
def scoreboardChanged (existing : MatchState) (sb : Scoreboard) : Bool :=
  existing.score_home != sb.score_home
    || existing.score_away != sb.score_away
    || existing.phase != sb.phase.value
    || existing.clock != sb.clock

/-- Result of normalize_scoreboard: the returned bool, the resulting
match_state row, plus the Redis side effects (snapshot keys written and
(match_id, tier) deltas published). -/
structure ScoreboardResult where
  changed : Bool
  state : MatchState
  snapWrites : List String
  deltas : List (String × Int)
  deriving DecidableEq, Repr

/-- NormalizationService.normalize_scoreboard (normalizer.py).
`existing` is the current MatchStateORM row, if any. On a changed tuple the
incoming values are written with version and seq incremented; on an equal
tuple the function returns False before any write, snapshot or publish. -/
def normalize_scoreboard (matchId : String) (existing : Option MatchState)
    (sb : Scoreboard) : ScoreboardResult :=
  let newVersion : Nat := match existing with | some e => e.version + 1 | none => 1
  let newSeq : Nat := match existing with | some e => e.seq + 1 | none => 1
  let snapKey := "snap:match:" ++ matchId ++ ":scoreboard"
  match existing with
  | some e =>
    if !(scoreboardChanged e sb) then
      { changed := false, state := e, snapWrites := [], deltas := [] }
    else
      { changed := true
        state :=
          { e with
            score_home := sb.score_home
            score_away := sb.score_away
            score_breakdown := sb.breakdown
            clock := sb.clock
            phase := sb.phase.value
            version := newVersion
            seq := newSeq }
        snapWrites := [snapKey]
        deltas := [(matchId, 0)] }
  | none =>
      { changed := true
        state :=
          { score_home := sb.score_home
            score_away := sb.score_away
            score_breakdown := sb.breakdown
            clock := sb.clock
            phase := sb.phase.value
            version := newVersion
            seq := newSeq }
        snapWrites := [snapKey]
        deltas := [(matchId, 0)] }

/-- A `match_events` row (MatchEventORM columns relevant to sequencing,
idempotency and reconciliation). `rid` models the ORM primary key. -/
structure EventRow where
  rid : Nat
  match_id : Nat
  event_type : String
  minute : Option Int
  team_id : Option Nat
  score_home : Option Int
  score_away : Option Int
  synthetic : Bool
  source_provider : Option String
  provider_event_id : String
  seq : Nat
  deriving DecidableEq, Repr

/-- An incoming domain `MatchEvent` as consumed by normalize_events and by
the Builder. An empty string models a falsy provider_event_id. -/
structure InEvent where
  event_type : String
  minute : Option Int
  team_id : Option Nat
  score_home : Option Int
  score_away : Option Int
  synthetic : Bool
  provider_event_id : String
  deriving DecidableEq, Repr

/-- The per-match seq values of a table, in row insertion order. -/
def seqsOf (m : Nat) (table : List EventRow) : List Nat :=
  (table.filter (fun r => r.match_id == m)).map (fun r => r.seq)

/-- `SELECT COALESCE(MAX(seq), 0) FROM match_events WHERE match_id = m`. -/
def maxSeq (m : Nat) (table : List EventRow) : Nat :=
  (seqsOf m table).foldl Nat.max 0

/-- The duplicate check of normalize_events: does a row with this
(match_id, source_provider, provider_event_id) identity already exist? -/
def hasIdentity (table : List EventRow) (m : Nat) (prov : String)
    (pid : String) : Bool :=
  table.any (fun r =>
    r.match_id == m && r.source_provider == some prov
      && r.provider_event_id == pid)

/-- The loop body of normalize_events over the incoming event list.
Returns (table, newly inserted rows, fresh-value counter). The counter
models uuid4 draws (fresh provider_event_ids and ORM row ids). Pending
inserts are visible to later duplicate checks in the same call (SQLAlchemy
autoflush on the SELECT). -/
def normEventsGo (m : Nat) (prov : String) :
    List InEvent → List EventRow → List EventRow → Nat →
      List EventRow × List EventRow × Nat
  | [], table, acc, gen => (table, acc, gen)
  | e :: rest, table, acc, gen =>
    let pid := if e.provider_event_id == "" then "uuid:" ++ toString gen
               else e.provider_event_id
    let gen1 := if e.provider_event_id == "" then gen + 1 else gen
    if hasIdentity table m prov pid then
      normEventsGo m prov rest table acc gen1
    else
      let row : EventRow :=
        { rid := gen1
          match_id := m
          event_type := e.event_type
          minute := e.minute
          team_id := e.team_id
          score_home := e.score_home
          score_away := e.score_away
          synthetic := e.synthetic
          source_provider := some prov
          provider_event_id := pid
          seq := maxSeq m table + 1 }
      normEventsGo m prov rest (table ++ [row]) (acc ++ [row]) (gen1 + 1)

/-- Result of normalize_events: table and returned new events, plus the
Redis side effects (stream appends per new event, a single tier-1 delta
when any event was inserted) and the fresh-value counter. -/
structure EventsResult where
  table : List EventRow
  newEvents : List EventRow
  streamAppends : List (String × Nat)
  deltas : List (String × Int)
  gen : Nat
  deriving DecidableEq, Repr

/-- NormalizationService.normalize_events (normalizer.py). -/
def normalize_events (m : Nat) (prov : String) (events : List InEvent)
    (table : List EventRow) (gen : Nat) : EventsResult :=
  let res := normEventsGo m prov events table [] gen
  let streamKey := "stream:match:" ++ toString m ++ ":events"
  { table := res.1
    newEvents := res.2.1
    streamAppends := res.2.1.map (fun r => (streamKey, r.rid))
    deltas := if res.2.1.isEmpty then [] else [(toString m, 1)]
    gen := res.2.2 }

/-- BuilderService._persist_synthetic_events (builder/service.py): rows are
added with synthetic=True, source_provider=None and no explicit seq, so the
MatchEventORM column default seq=0 applies. -/
def builderPersist (m : Nat) (events : List InEvent)
    (table : List EventRow) (gen : Nat) : List EventRow × Nat :=
  events.foldl
    (fun (acc : List EventRow × Nat) e =>
      (acc.1 ++
        [{ rid := acc.2
           match_id := m
           event_type := e.event_type
           minute := e.minute
           team_id := e.team_id
           score_home := e.score_home
           score_away := e.score_away
           synthetic := true
           source_provider := none
           provider_event_id := e.provider_event_id
           seq := 0 }],
       acc.2 + 1))
    (table, gen)

/-- ReconciliationEngine._events_match (builder/service.py). -/
def eventsMatchChk (real : InEvent) (synth : EventRow) : Bool :=
  if real.event_type != synth.event_type then false
  else
    let scoring := real.event_type == "goal" || real.event_type == "basket"
      || real.event_type == "run"
    if scoring
        && (real.score_home != synth.score_home
            || real.score_away != synth.score_away) then false
    else if scoring && real.team_id.isSome && synth.team_id.isSome
        && real.team_id != synth.team_id then false
    else
      let phaseEvt := real.event_type == "match_start"
        || real.event_type == "match_end"
        || real.event_type == "period_start"
        || real.event_type == "period_end"
      if phaseEvt then
        match real.minute, synth.minute with
        | some rm, some sm => if (rm - sm).natAbs > 5 then false else true
        | _, _ => true
      else true

/-- Stable insertion into a list kept in descending seq order. -/
def insertDescBySeq (r : EventRow) : List EventRow → List EventRow
  | [] => [r]
  | x :: xs =>
    if x.seq < r.seq then r :: x :: xs else x :: insertDescBySeq r xs

/-- `ORDER BY seq DESC` over a list of rows. -/
def sortDescBySeq (l : List EventRow) : List EventRow :=
  l.foldr insertDescBySeq []

/-- One iteration of the reconcile loop: the first matching synthetic row
from the scan list is deleted and the superseded count incremented. -/
def reconcileStep (synths : List EventRow) (acc : List EventRow × Nat)
    (real : InEvent) : List EventRow × Nat :=
  match synths.find? (fun s => eventsMatchChk real s) with
  | some s => (acc.1.filter (fun r => r.rid != s.rid), acc.2 + 1)
  | none => acc

/-- ReconciliationEngine.reconcile (builder/service.py): scan the 50 most
recent non-superseded synthetic rows of the match; for each real event the
first matching synthetic row is deleted (each real event supersedes at most
one). The scan list is computed once, as in the source. Returns the table
and the superseded count. -/
def reconcile (m : Nat) (realEvents : List InEvent)
    (table : List EventRow) : List EventRow × Nat :=
  if realEvents.isEmpty then (table, 0)
  else
    let synths :=
      (sortDescBySeq (table.filter
        (fun r => r.match_id == m && r.synthetic))).take 50
    if synths.isEmpty then (table, 0)
    else
      realEvents.foldl (reconcileStep synths) (table, 0)

/-- verifier/sources/base.py CanonicalMatchState. fetched_at (a Unix
timestamp, only ever compared) is modelled as Int. -/
structure CanonicalMatchState where
  score_home : Int
  score_away : Int
  phase : String
  clock : Option String
  period : Option String
  source : String
  fetched_at : Int
  deriving DecidableEq, Repr

/-- verifier/confidence.py CurrentState. -/
structure CurrentState where
  score_home : Int
  score_away : Int
  phase : String
  clock : Option String
  period : Option String
  version : Nat
  deriving DecidableEq, Repr

/-- `_normalize_phase`: strip then lowercase. -/
def normPhaseStr (p : String) : String :=
  p.trim.toLower

/-- `_phase_equivalent` (confidence.py). -/
def phaseEquivalent (a b : String) : Bool :=
  let pa := normPhaseStr a
  let pb := normPhaseStr b
  if pa == pb then true
  else
    let liveA := strStartsWith pa "live_" || pa == "break"
    let liveB := strStartsWith pb "live_" || pb == "break"
    if liveA && liveB then true
    else
      let termA := pa == "finished" || pa == "postponed" || pa == "cancelled"
      let termB := pb == "finished" || pb == "postponed" || pb == "cancelled"
      if termA && termB then true else false

/-- `_score_match` (confidence.py). -/
def scoreMatchChk (current : CurrentState) (v : CanonicalMatchState) : Bool :=
  current.score_home == v.score_home
    && current.score_away == v.score_away
    && phaseEquivalent current.phase v.phase

/-- Python `max(l, key=fetched_at)` starting from a first candidate: keeps
the earlier element unless a strictly larger key appears. -/
def maxByFetchedAt : CanonicalMatchState → List CanonicalMatchState →
    CanonicalMatchState
  | best, [] => best
  | best, v :: rest =>
    maxByFetchedAt (if best.fetched_at < v.fetched_at then v else best) rest

/-- The (confidence, disposition, recommended state) triple returned by
compute_confidence. Float literals 0.9 / 0.6 / 0.3 / 0.0 are represented
exactly in ℚ. -/
structure ConfidenceResult where
  confidence : ℚ
  disposition : String
  recommended : Option CanonicalMatchState
  deriving DecidableEq, Repr

/-- compute_confidence (verifier/confidence.py). -/
def compute_confidence (current : CurrentState)
    (verifiedList : List CanonicalMatchState) : ConfidenceResult :=
  match verifiedList with
  | [] => { confidence := 0, disposition := "DISPUTED", recommended := none }
  | v0 :: rest =>
    let matching := (v0 :: rest).filter (scoreMatchChk current)
    match matching with
    | m0 :: _ :: _ =>
      { confidence := 9 / 10, disposition := "HIGH", recommended := some m0 }
    | [m0] =>
      { confidence := 6 / 10, disposition := "MEDIUM", recommended := some m0 }
    | [] =>
      { confidence := 3 / 10, disposition := "DISPUTED"
        recommended := some (maxByFetchedAt v0 rest) }

/-- A Redis value: strings, integer-valued strings (counters), lists and
streams are the types this codebase stores. Stream entries carry a
monotonically increasing entry id. -/
inductive RVal
  | str : String → RVal
  | int : Int → RVal
  | list : List String → RVal
  | stream : List (Nat × String) → RVal
  deriving DecidableEq, Repr

/-- The Redis keyspace as an association list. -/
abbrev RStore := List (String × RVal)

/-- Raw lookup of a key. -/
def rget (st : RStore) (k : String) : Option RVal :=
  (st.find? (fun p => p.1 == k)).map (fun p => p.2)

/-- Set a key, replacing any existing binding. -/
def rset (st : RStore) (k : String) (v : RVal) : RStore :=
  match st with
  | [] => [(k, v)]
  | (k0, v0) :: rest =>
    if k0 == k then (k, v) :: rest else (k0, v0) :: rset rest k v

/-- Redis INCR on a counter key: missing keys start at 0. The WRONGTYPE
reply for non-integer values is unreachable on the presence keys this
model increments, so the store is returned unchanged in that case. -/
def redisIncr (st : RStore) (k : String) : RStore × Int :=
  match rget st k with
  | none => (rset st k (RVal.int 1), 1)
  | some (RVal.int i) => (rset st k (RVal.int (i + 1)), i + 1)
  | some _ => (st, 0)

/-- RedisManager.increment_presence: INCR on `presence:count:{channel}`
(the 120 s TTL is not modelled; no claim depends on expiry). -/
def incrementPresence (st : RStore) (channel : String) : RStore :=
  (redisIncr st ("presence:count:" ++ channel)).1

/-- RedisManager.get_subscriber_count: GET `subcnt:match:{match_id}`,
0 when the key is absent. -/
def getSubscriberCount (st : RStore) (matchId : String) : Int :=
  match rget st ("subcnt:match:" ++ matchId) with
  | some (RVal.int i) => i
  | _ => 0

/-- Redis XADD with MAXLEN trimming: appends an entry with the next id and
keeps the most recent `maxLen` entries. WRONGTYPE on a non-stream value. -/
def redisXadd (st : RStore) (k : String) (data : String) (maxLen : Nat) :
    Except String RStore :=
  match rget st k with
  | none => Except.ok (rset st k (RVal.stream [(1, data)]))
  | some (RVal.stream l) =>
    let nid := (l.foldl (fun a p => Nat.max a p.1) 0) + 1
    let l2 := l ++ [(nid, data)]
    Except.ok (rset st k (RVal.stream (l2.drop (l2.length - maxLen))))
  | some _ => Except.error "WRONGTYPE"

/-- RedisManager.append_event_stream: XADD on
`stream:match:{match_id}:events` with maxlen 500. -/
def appendEventStream (st : RStore) (matchId : String) (data : String) :
    Except String RStore :=
  redisXadd st ("stream:match:" ++ matchId ++ ":events") data 500

/-- Redis GET: strings and integer strings reply with a value, list and
stream keys raise WRONGTYPE. -/
def redisGet (st : RStore) (k : String) : Except String (Option String) :=
  match rget st k with
  | none => Except.ok none
  | some (RVal.str s) => Except.ok (some s)
  | some (RVal.int i) => Except.ok (some (toString i))
  | some _ => Except.error "WRONGTYPE"

/-- Redis LRANGE over [start, stop] with non-negative indices: replies only
on list keys (or an empty reply on a missing key); a string, counter or
stream key raises WRONGTYPE. -/
def redisLrange (st : RStore) (k : String) (start stop : Nat) :
    Except String (List String) :=
  match rget st k with
  | none => Except.ok []
  | some (RVal.list l) => Except.ok ((l.drop start).take (stop - start + 1))
  | some _ => Except.error "WRONGTYPE"

/-- MAX_SUBSCRIPTIONS_PER_CONN (api/ws/manager.py). -/
def maxSubscriptionsPerConn : Nat := 25

/-- The subscription state of one WSConnection (a Python set, modelled as
a duplicate-free list in insertion order). -/
structure WSConn where
  subscriptions : List String
  deriving DecidableEq, Repr

/-- A subscribe request: `match_id` may be missing; `tiers` defaults to
[0] when missing. -/
structure SubscribeMsg where
  match_id : Option String
  tiers : Option (List Int)
  deriving DecidableEq, Repr

/-- Messages the manager sends to one client during subscribe handling.
`snap` is the snapshot replay frame (type snapshot, replay flag); `batch`
is the tier-1 events_batch snapshot frame; `closeFrame` models a WebSocket
close (emitted only by _close_connection, never by _handle_subscribe). -/
inductive OutMsg
  | err (code msg : String)
  | stateMsg (subscribed : List String)
  | snap (matchId : String) (tier : Int) (data : String) (replay : Bool)
  | batch (matchId : String) (tier : Int) (data : List String) (replay : Bool)
  | closeFrame (code : Nat)
  deriving DecidableEq, Repr

/-- The fanout channel name for a match and tier. -/
def channelFor (matchId : String) (t : Tier) : String :=
  "fanout:match:" ++ matchId ++ ":tier:" ++ toString t.value

/-- The tier_key_map.get(tier, "scoreboard") lookup of _send_replay: any
tier value outside 0/1/2 falls back to "scoreboard". -/
def tierName (tier : Int) : String :=
  if tier == 0 then "scoreboard"
  else if tier == 1 then "events"
  else if tier == 2 then "stats"
  else "scoreboard"

/-- WebSocketManager._send_replay (api/ws/manager.py): fetch the snapshot
for the mapped tier name and deliver it tagged replay; for tier == 1
additionally LRANGE the first 100 entries of `stream:match:{id}:events`
and deliver them as an events_batch — the whole stream read is wrapped in
a bare try/except, so any WRONGTYPE reply is swallowed and nothing is
sent. Snapshot values are stored as already-valid JSON, so the
JSONDecodeError branches are not taken. -/
def sendReplay (matchId : String) (tier : Int) (st : RStore) : List OutMsg :=
  let snapKey := "snap:match:" ++ matchId ++ ":" ++ tierName tier
  let first :=
    match redisGet st snapKey with
    | Except.ok (some d) => [OutMsg.snap matchId tier d true]
    | _ => []
  let second :=
    if tier == 1 then
      match redisLrange st ("stream:match:" ++ matchId ++ ":events") 0 99 with
      | Except.ok l =>
        if l.isEmpty then [] else [OutMsg.batch matchId 1 l true]
      | Except.error _ => []
    else []
  first ++ second

/-- One iteration of the subscribe loop body: add the channel to the
connection's subscription set and increment its presence counter. -/
def subscribeStep (acc : List String × RStore) (ch : String) :
    List String × RStore :=
  (if acc.1.contains ch then acc.1 else acc.1 ++ [ch],
   incrementPresence acc.2 ch)

/-- Result of _handle_subscribe: the connection, the Redis store and the
frames sent to this client, in order. -/
structure SubResult where
  conn : WSConn
  store : RStore
  sent : List OutMsg
  deriving DecidableEq, Repr

/-- WebSocketManager._handle_subscribe (api/ws/manager.py). `uuidOk`
abstracts the `uuid.UUID(match_id)` parse (true = parses). Valid tiers
are mapped to channels; invalid tier values are skipped by the
ValueError/continue. The limit check compares the current subscription
count plus the length of the requested channel list (with multiplicity)
against 25 and rejects before any channel is added or presence counter
incremented. Replays run over the raw tiers list. -/
def handleSubscribe (uuidOk : String → Bool) (conn : WSConn)
    (msg : SubscribeMsg) (st : RStore) : SubResult :=
  match msg.match_id with
  | none =>
    { conn := conn, store := st
      sent := [OutMsg.err "missing_match_id" "subscribe requires match_id"] }
  | some matchId =>
    if !uuidOk matchId then
      { conn := conn, store := st
        sent := [OutMsg.err "invalid_match_id"
                  "match_id must be a valid UUID"] }
    else
      let tiers := msg.tiers.getD [0]
      let channelsToAdd := tiers.filterMap
        (fun tv => (Tier.ofIntOpt tv).map (fun t => channelFor matchId t))
      if conn.subscriptions.length + channelsToAdd.length
          > maxSubscriptionsPerConn then
        { conn := conn, store := st
          sent := [OutMsg.err "subscription_limit"
                    "Maximum 25 subscriptions per connection"] }
      else
        let folded := channelsToAdd.foldl subscribeStep (conn.subscriptions, st)
        let conn2 : WSConn := { subscriptions := folded.1 }
        let replays :=
          tiers.foldl (fun acc tv => acc ++ sendReplay matchId tv folded.2) []
        { conn := conn2, store := folded.2
          sent := OutMsg.stateMsg folded.1 :: replays }

/-- WebSocketManager._close_connection sends a close frame; it is the only
emitter of `closeFrame` and is never reached from _handle_subscribe. -/
def closeConnection (code : Nat) : List OutMsg :=
  [OutMsg.closeFrame code]

/-- The channel list a subscribe request resolves to (valid tiers only,
with multiplicity), as computed inside _handle_subscribe. -/
def requestChannels (matchId : String) (tiers : List Int) : List String :=
  tiers.filterMap (fun tv => (Tier.ofIntOpt tv).map (fun t => channelFor matchId t))

/-- Number of match_events rows with a given
(match_id, source_provider, provider_event_id) identity. -/
def countIdentity (m : Nat) (prov pid : String) (table : List EventRow) : Nat :=
  (table.filter (fun r =>
    r.match_id == m && r.source_provider == some prov
      && r.provider_event_id == pid)).length

/-- `n` successive calls of normalize_events with the same single-event
input, threading the table and fresh-value counter. -/
def iterCalls (m : Nat) (prov : String) (e : InEvent) :
    Nat → List EventRow → Nat → List EventRow × Nat
  | 0, table, gen => (table, gen)
  | n + 1, table, gen =>
    let r := normalize_events m prov [e] table gen
    iterCalls m prov e n r.table r.gen

/-- Concrete match_state row for the score-decrease scenario: 1–0 in the
first half. -/
def c1State : MatchState :=
  { score_home := 1, score_away := 0, score_breakdown := [],
    clock := some "10", phase := "live_first_half", version := 3, seq := 3 }

/-- Concrete incoming scoreboard reporting a lower home score (0–0) in the
same phase with the same clock. -/
def c1Incoming : Scoreboard :=
  { score_home := 0, score_away := 0, breakdown := [],
    phase := Phase.liveFirstHalf, clock := some "10" }

/-- Result of one WS subscribe to match m1 tier 0 against an empty Redis. -/
def c2Result : SubResult :=
  handleSubscribe (fun _ => true) { subscriptions := [] }
    { match_id := some "m1", tiers := some [0] } []

/-- A synthetic GOAL at 1–0 as the Builder generates it. -/
def c3SynthGoal : InEvent :=
  { event_type := "goal", minute := some 23, team_id := none,
    score_home := some 1, score_away := some 0, synthetic := true,
    provider_event_id := "synthetic:a1" }

/-- A real provider GOAL at 1–0 for the same match. -/
def c3RealGoal : InEvent :=
  { event_type := "goal", minute := some 23, team_id := none,
    score_home := some 1, score_away := some 0, synthetic := false,
    provider_event_id := "e101" }

/-- Table after the Builder persists one synthetic event into an empty
match_events table. -/
def c3TableA : List EventRow := (builderPersist 7 [c3SynthGoal] [] 0).1

/-- Table after normalize_events inserts one real event into an empty
table. -/
def c3TableB : List EventRow :=
  (normalize_events 7 "espn" [c3RealGoal] [] 0).table

/-- Table after the Builder then persists a synthetic event behind the
real one. -/
def c3TableC : List EventRow := (builderPersist 7 [c3SynthGoal] c3TableB 10).1

/-- Redis store holding one entry in the m1 event stream, written through
the model of append_event_stream (XADD). -/
def c4Store : RStore :=
  ((appendEventStream [] "m1" "goal-evt").toOption).getD []

/-- Result of a WS subscribe to match m1 tier 1 against `c4Store`. -/
def c4Result : SubResult :=
  handleSubscribe (fun _ => true) { subscriptions := [] }
    { match_id := some "m1", tiers := some [1] } c4Store

/-- Concrete current state for the verifier scenarios. -/
def c8Current : CurrentState :=
  { score_home := 1, score_away := 1, phase := "live_second_half",
    clock := none, period := none, version := 5 }

/-- A verified source state disagreeing with `c8Current` (2–1). -/
def c8Source : CanonicalMatchState :=
  { score_home := 2, score_away := 1, phase := "live_second_half",
    clock := none, period := none, source := "espn", fetched_at := 100 }

/-- The row normalize_events inserts for a fresh event carrying a
non-empty provider_event_id. -/
def insertedRow (m : Nat) (prov : String) (e : InEvent)
    (table : List EventRow) (gen : Nat) : EventRow :=
  { rid := gen
    match_id := m
    event_type := e.event_type
    minute := e.minute
    team_id := e.team_id
    score_home := e.score_home
    score_away := e.score_away
    synthetic := e.synthetic
    source_provider := some prov
    provider_event_id := e.provider_event_id
    seq := maxSeq m table + 1 }

/-- Concrete stored state for the idempotence scenario (2–1, second
half). -/
def c5State : MatchState :=
  { score_home := 2, score_away := 1, score_breakdown := [],
    clock := some "88", phase := "live_second_half", version := 7, seq := 7 }

/-- Concrete incoming scoreboard with the same
(score, phase, clock) tuple as `c5State`. -/
def c5Incoming : Scoreboard :=
  { score_home := 2, score_away := 1, breakdown := [],
    phase := Phase.liveSecondHalf, clock := some "88" }

/-- A subscribe request listing the scoreboard tier 26 times. -/
def c9Msg : SubscribeMsg :=
  { match_id := some "m1", tiers := some (List.replicate 26 0) }

/-- Result of the 26-duplicate-tier subscribe on a fresh connection. -/
def c9Result : SubResult :=
  handleSubscribe (fun _ => true) { subscriptions := [] } c9Msg []

/-- Redis store holding only a scoreboard snapshot for match m1. -/
def c10Store : RStore := [("snap:match:m1:scoreboard", RVal.str "SB")]

/-- All MatchPhase members in declaration order. -/
def Phase.allList : List Phase :=
  [Phase.scheduled, Phase.preMatch, Phase.liveFirstHalf, Phase.liveHalftime,
   Phase.liveSecondHalf, Phase.liveExtraTime, Phase.livePenalties,
   Phase.liveQ1, Phase.liveQ2, Phase.liveQ3, Phase.liveQ4, Phase.liveOT,
   Phase.liveP1, Phase.liveP2, Phase.liveP3, Phase.liveInning,
   Phase.breakPhase, Phase.suspended, Phase.finished, Phase.postponed,
   Phase.cancelled]

/- ──────────────────────────── Theorems ──────────────────────────── -/

/-- C7 counterexample: the claimed classification is false on the code.
`suspended` is not classified live by `MatchPhase.is_live` (which requires
a `live_` prefix or `break`), so the Scheduler creates a poll task only
for tier 0 for a suspended match. -/
theorem suspended_not_live_counterexample :
    Phase.value Phase.suspended = "suspended"
    ∧ Phase.is_live Phase.suspended = false
    ∧ tiersToPoll Phase.suspended = [Tier.scoreboard] := by
  decide

/-- C7 amended: `is_live` holds exactly for the sixteen `live_*` phases
plus `break`; `is_terminal` exactly for finished/postponed/cancelled;
`suspended` is in neither subset; the Scheduler polls tiers {0,1,2} for a
live phase and only tier 0 otherwise (pre_match and suspended included). -/
theorem phase_partition_amended :
    Phase.allList.filter Phase.is_live =
      [Phase.liveFirstHalf, Phase.liveHalftime, Phase.liveSecondHalf,
       Phase.liveExtraTime, Phase.livePenalties, Phase.liveQ1, Phase.liveQ2,
       Phase.liveQ3, Phase.liveQ4, Phase.liveOT, Phase.liveP1, Phase.liveP2,
       Phase.liveP3, Phase.liveInning, Phase.breakPhase]
    ∧ Phase.allList.filter Phase.is_terminal =
        [Phase.finished, Phase.postponed, Phase.cancelled]
    ∧ (∀ p : Phase, ¬(p.is_live = true ∧ p.is_terminal = true))
    ∧ (Phase.is_live Phase.suspended = false
        ∧ Phase.is_terminal Phase.suspended = false)
    ∧ (∀ p : Phase, p.is_live = true →
        tiersToPoll p = [Tier.scoreboard, Tier.events, Tier.stats])
    ∧ (∀ p : Phase, p.is_live = false → tiersToPoll p = [Tier.scoreboard]) := by
  decide

/-- Witness for `phase_partition_amended` at concrete phases. -/
theorem phase_partition_amended_witness :
    tiersToPoll Phase.liveFirstHalf =
      [Tier.scoreboard, Tier.events, Tier.stats]
    ∧ tiersToPoll Phase.preMatch = [Tier.scoreboard] :=
  ⟨phase_partition_amended.2.2.2.2.1 Phase.liveFirstHalf (by decide),
   phase_partition_amended.2.2.2.2.2 Phase.preMatch (by decide)⟩

/-- C1 counterexample: normalize_scoreboard writes an incoming scoreboard
whose home score is lower than the stored one — the lower score is
written, so stored scores can decrease. -/
theorem score_decrease_written_counterexample :
    c1Incoming.score_home < c1State.score_home
    ∧ (normalize_scoreboard "m1" (some c1State) c1Incoming).changed = true
    ∧ (normalize_scoreboard "m1" (some c1State) c1Incoming).state.score_home
        < c1State.score_home := by
  decide

/-- C1 amended: whenever the incoming (score, phase, clock) tuple differs
from the stored one, normalize_scoreboard overwrites the stored scores
with the incoming ones verbatim — including lower scores; there is no
monotonicity guard. -/
theorem scoreboard_overwrites_amended (mid : String) (e : MatchState)
    (sb : Scoreboard) (h : scoreboardChanged e sb = true) :
    (normalize_scoreboard mid (some e) sb).state.score_home = sb.score_home
    ∧ (normalize_scoreboard mid (some e) sb).state.score_away
        = sb.score_away := by
  simp [normalize_scoreboard, h]

/-- Witness for `scoreboard_overwrites_amended` on the concrete
score-decrease input. -/
theorem scoreboard_overwrites_amended_witness :
    (normalize_scoreboard "m1" (some c1State) c1Incoming).state.score_home
      = c1Incoming.score_home
    ∧ (normalize_scoreboard "m1" (some c1State) c1Incoming).state.score_away
      = c1Incoming.score_away :=
  scoreboard_overwrites_amended "m1" c1State c1Incoming (by decide)

/-- C2: a successful subscribe to match m1 tier 0 increments the presence
counter `presence:count:fanout:match:m1:tier:0`, yet the subscriber count
the Scheduler's compute_interval reads for m1 (get_subscriber_count, key
`subcnt:match:m1`) is still 0: the two key families are disjoint and
nothing in the codebase writes the latter. -/
theorem presence_counter_not_read_by_scheduler :
    c2Result.conn.subscriptions = [channelFor "m1" Tier.scoreboard]
    ∧ rget c2Result.store ("presence:count:" ++ channelFor "m1" Tier.scoreboard)
        = some (RVal.int 1)
    ∧ getSubscriberCount c2Result.store "m1" = 0 := by
  decide

/-- C4: the event stream written by append_event_stream (XADD) holds a
stream value, so the LRANGE issued by _send_replay for tier 1 answers
WRONGTYPE; the bare try/except swallows it and the subscribe to tier 1
delivers no events batch at all — only the subscription confirmation. -/
theorem tier1_replay_list_read_fails :
    rget c4Store "stream:match:m1:events"
      = some (RVal.stream [(1, "goal-evt")])
    ∧ redisLrange c4Store "stream:match:m1:events" 0 99
        = Except.error "WRONGTYPE"
    ∧ c4Result.sent = [OutMsg.stateMsg ["fanout:match:m1:tier:1"]] :=
  ⟨rfl, rfl, rfl⟩

/-- C3 counterexample: Builder-persisted synthetic rows take the
MatchEventORM default seq = 0, so (a) a table holding one synthetic row
has non-deleted seq list [0], not [1], and (b) after a real event (seq 1)
followed by a synthetic insert the seq list in insertion order is [1, 0],
not strictly increasing. -/
theorem seq_invariant_counterexample :
    seqsOf 7 c3TableA = [0]
    ∧ seqsOf 7 c3TableA ≠ List.range' 1 (seqsOf 7 c3TableA).length
    ∧ seqsOf 7 c3TableC = [1, 0]
    ∧ ¬ List.Pairwise (fun a b => a < b) (seqsOf 7 c3TableC) := by
  decide

/-- C8 counterexample: with an empty verified-source list (0 matching
states) compute_confidence returns confidence 0.0 with no recommended
state, not 0.3 with a most-recently-fetched recommendation. -/
theorem empty_verified_list_counterexample :
    compute_confidence c8Current []
      = { confidence := 0, disposition := "DISPUTED", recommended := none }
    ∧ (0 : ℚ) ≠ 3 / 10 := by
  refine ⟨rfl, by norm_num⟩

/-- C5: normalize_scoreboard on an existing row is a no-op exactly when
the (score_home, score_away, phase, clock) tuple is unchanged — returning
False with the row, snapshots and deltas untouched — and otherwise writes
the incoming values with version and seq incremented by exactly 1, one
snapshot write and one tier-0 delta; re-running the same input after a
write is a no-op. -/
theorem normalize_scoreboard_idempotent (mid : String) (e : MatchState)
    (sb : Scoreboard) :
    (scoreboardChanged e sb = false →
      normalize_scoreboard mid (some e) sb
        = { changed := false, state := e, snapWrites := [], deltas := [] })
    ∧ (scoreboardChanged e sb = true →
      normalize_scoreboard mid (some e) sb
        = { changed := true
            state :=
              { e with
                score_home := sb.score_home
                score_away := sb.score_away
                score_breakdown := sb.breakdown
                clock := sb.clock
                phase := sb.phase.value
                version := e.version + 1
                seq := e.seq + 1 }
            snapWrites := ["snap:match:" ++ mid ++ ":scoreboard"]
            deltas := [(mid, 0)] })
    ∧ (scoreboardChanged e sb = true →
      normalize_scoreboard mid
          (some ((normalize_scoreboard mid (some e) sb).state)) sb
        = { changed := false
            state := (normalize_scoreboard mid (some e) sb).state
            snapWrites := [], deltas := [] }) := by
  refine ⟨fun h => ?_, fun h => ?_, fun h => ?_⟩
  · simp [normalize_scoreboard, h]
  · simp [normalize_scoreboard, h]
  · have h1 : (normalize_scoreboard mid (some e) sb).state
        = { e with
            score_home := sb.score_home
            score_away := sb.score_away
            score_breakdown := sb.breakdown
            clock := sb.clock
            phase := sb.phase.value
            version := e.version + 1
            seq := e.seq + 1 } := by
      simp [normalize_scoreboard, h]
    rw [h1]
    simp [normalize_scoreboard, scoreboardChanged]

/-- Witness for `normalize_scoreboard_idempotent`: an equal tuple is a
no-op on a concrete state. -/
theorem normalize_scoreboard_idempotent_witness :
    normalize_scoreboard "m9" (some c5State) c5Incoming
      = { changed := false, state := c5State, snapWrites := [],
          deltas := [] } :=
  (normalize_scoreboard_idempotent "m9" c5State c5Incoming).1 (by decide)

/-- The element Python max picks is the starting candidate or a list
element. -/
theorem maxByFetchedAt_cases (best : CanonicalMatchState)
    (l : List CanonicalMatchState) :
    maxByFetchedAt best l = best ∨ maxByFetchedAt best l ∈ l := by
  induction l generalizing best with
  | nil => exact Or.inl rfl
  | cons v rest ih =>
    simp only [maxByFetchedAt]
    rcases ih (if best.fetched_at < v.fetched_at then v else best) with h | h
    · by_cases hb : best.fetched_at < v.fetched_at
      · right
        rw [h, if_pos hb]
        exact List.mem_cons_self _ _
      · left
        rw [h, if_neg hb]
    · right
      exact List.mem_cons_of_mem _ h

/-- The element Python max picks has the maximal fetched_at. -/
theorem maxByFetchedAt_ge (best : CanonicalMatchState)
    (l : List CanonicalMatchState) :
    best.fetched_at ≤ (maxByFetchedAt best l).fetched_at
    ∧ ∀ v ∈ l, v.fetched_at ≤ (maxByFetchedAt best l).fetched_at := by
  induction l generalizing best with
  | nil => exact ⟨le_refl _, by simp⟩
  | cons v rest ih =>
    simp only [maxByFetchedAt]
    rcases ih (if best.fetched_at < v.fetched_at then v else best) with ⟨h1, h2⟩
    refine ⟨le_trans ?_ h1, ?_⟩
    · by_cases hb : best.fetched_at < v.fetched_at
      · rw [if_pos hb]
        exact le_of_lt hb
      · rw [if_neg hb]
    · intro w hw
      rcases List.mem_cons.mp hw with rfl | hw2
      · refine le_trans ?_ h1
        by_cases hb : best.fetched_at < w.fetched_at
        · rw [if_pos hb]
        · rw [if_neg hb]
          exact le_of_not_lt hb
      · exact h2 w hw2

/-- C8 amended: on a non-empty verified list, compute_confidence returns
0.9/HIGH when at least two source states match the current state, 0.6 and
MEDIUM with the first match recommended when exactly one matches, and
0.3/DISPUTED when none matches, recommending a list element of maximal
fetched_at (Python max, first maximum on ties). The empty list instead
yields 0.0/DISPUTED with no recommendation. -/
theorem compute_confidence_amended (current : CurrentState)
    (v0 : CanonicalMatchState) (rest : List CanonicalMatchState) :
    (2 ≤ ((v0 :: rest).filter (scoreMatchChk current)).length →
      (compute_confidence current (v0 :: rest)).confidence = 9 / 10
      ∧ (compute_confidence current (v0 :: rest)).disposition = "HIGH")
    ∧ (((v0 :: rest).filter (scoreMatchChk current)).length = 1 →
      (compute_confidence current (v0 :: rest)).confidence = 6 / 10
      ∧ (compute_confidence current (v0 :: rest)).disposition = "MEDIUM"
      ∧ (compute_confidence current (v0 :: rest)).recommended
          = ((v0 :: rest).filter (scoreMatchChk current)).head?)
    ∧ (((v0 :: rest).filter (scoreMatchChk current)).length = 0 →
      compute_confidence current (v0 :: rest)
        = { confidence := 3 / 10, disposition := "DISPUTED",
            recommended := some (maxByFetchedAt v0 rest) }
      ∧ maxByFetchedAt v0 rest ∈ v0 :: rest
      ∧ ∀ v ∈ v0 :: rest,
          v.fetched_at ≤ (maxByFetchedAt v0 rest).fetched_at) := by
  rcases hm : (v0 :: rest).filter (scoreMatchChk current) with _ | ⟨m0, ms⟩
  · refine ⟨fun h => ?_, fun h => ?_, fun _ => ⟨?_, ?_, ?_⟩⟩
    · simp at h
    · simp at h
    · simp [compute_confidence, hm]
    · rcases maxByFetchedAt_cases v0 rest with h | h
      · rw [h]
        exact List.mem_cons_self _ _
      · exact List.mem_cons_of_mem _ h
    · intro v hv
      rcases List.mem_cons.mp hv with rfl | hv2
      · exact (maxByFetchedAt_ge _ rest).1
      · exact (maxByFetchedAt_ge _ rest).2 v hv2
  · cases ms with
    | nil =>
      refine ⟨fun h => ?_, fun _ => ⟨?_, ?_, ?_⟩, fun h => ?_⟩
      · simp at h
      · simp [compute_confidence, hm]
      · simp [compute_confidence, hm]
      · simp [compute_confidence, hm]
      · simp at h
    | cons m1 ms2 =>
      refine ⟨fun _ => ⟨?_, ?_⟩, fun h => ?_, fun h => ?_⟩
      · simp [compute_confidence, hm]
      · simp [compute_confidence, hm]
      · simp at h
      · simp at h

/-- Witness for `compute_confidence_amended`: a single disagreeing source
yields 0.3/DISPUTED recommending that source. -/
theorem compute_confidence_amended_witness :
    compute_confidence c8Current [c8Source]
      = { confidence := 3 / 10, disposition := "DISPUTED",
          recommended := some (maxByFetchedAt c8Source []) } :=
  ((compute_confidence_amended c8Current c8Source []).2.2 (by decide)).1

/-- The duplicate check answers false exactly when no row carries the
identity. -/
theorem hasIdentity_false_iff (table : List EventRow) (m : Nat)
    (prov pid : String) :
    hasIdentity table m prov pid = false
      ↔ countIdentity m prov pid table = 0 := by
  rw [Bool.eq_false_iff]
  simp [hasIdentity, countIdentity, List.length_eq_zero,
    List.filter_eq_nil_iff, List.any_eq_true]

/-- countIdentity distributes over table append. -/
theorem countIdentity_append (m : Nat) (prov pid : String)
    (t1 t2 : List EventRow) :
    countIdentity m prov pid (t1 ++ t2)
      = countIdentity m prov pid t1 + countIdentity m prov pid t2 := by
  simp [countIdentity, List.filter_append]

/-- The freshly inserted row carries exactly the checked identity. -/
theorem countIdentity_insertedRow (m : Nat) (prov : String) (e : InEvent)
    (table : List EventRow) (gen : Nat) :
    countIdentity m prov e.provider_event_id
      [insertedRow m prov e table gen] = 1 := by
  simp [countIdentity, insertedRow]

/-- A single-event call on a table without the identity inserts one row
with seq = max+1, appends it to the stream and publishes one tier-1
delta. -/
theorem normalize_events_insert (m : Nat) (prov : String) (e : InEvent)
    (table : List EventRow) (gen : Nat)
    (hpid : (e.provider_event_id == "") = false)
    (hnew : hasIdentity table m prov e.provider_event_id = false) :
    normalize_events m prov [e] table gen
      = { table := table ++ [insertedRow m prov e table gen]
          newEvents := [insertedRow m prov e table gen]
          streamAppends := [("stream:match:" ++ toString m ++ ":events", gen)]
          deltas := [(toString m, 1)]
          gen := gen + 1 } := by
  simp [normalize_events, normEventsGo, hpid, hnew, insertedRow]

/-- A single-event call on a table already holding the identity leaves
everything unchanged and produces no effect. -/
theorem normalize_events_dup (m : Nat) (prov : String) (e : InEvent)
    (table : List EventRow) (gen : Nat)
    (hpid : (e.provider_event_id == "") = false)
    (hdup : hasIdentity table m prov e.provider_event_id = true) :
    normalize_events m prov [e] table gen
      = { table := table, newEvents := [], streamAppends := [],
          deltas := [], gen := gen } := by
  simp [normalize_events, normEventsGo, hpid, hdup]

/-- Once the identity is present, iterated calls are fixed points. -/
theorem iterCalls_fixed (m : Nat) (prov : String) (e : InEvent) (n : Nat)
    (table : List EventRow) (gen : Nat)
    (hpid : (e.provider_event_id == "") = false)
    (hdup : hasIdentity table m prov e.provider_event_id = true) :
    iterCalls m prov e n table gen = (table, gen) := by
  induction n with
  | zero => rfl
  | succ k ih =>
    have hr := normalize_events_dup m prov e table gen hpid hdup
    simp [iterCalls, hr, ih]

/-- The generated provider_event_id is never the empty string. -/
theorem freshPid_ne_empty (g : Nat) : ("uuid:" ++ toString g) ≠ "" := by
  intro h
  have h2 : ("uuid:" ++ toString g).length = (0 : Nat) := by
    rw [h]
    rfl
  rw [String.length_append] at h2
  have h3 : ("uuid:" : String).length = 5 := rfl
  omega

/-- C6: normalize_events is idempotent per event identity — starting from
a table without the (provider, provider_event_id, match) identity, N ≥ 1
identical single-event calls leave exactly one row with that identity;
the accepted event is assigned seq = per-match max(seq) + 1; and an event
arriving with an empty provider_event_id is assigned a non-empty one. -/
theorem normalize_events_idempotent (m : Nat) (prov : String) (e : InEvent)
    (table : List EventRow) (gen n : Nat)
    (hpid : e.provider_event_id ≠ "")
    (h0 : countIdentity m prov e.provider_event_id table = 0)
    (hn : 1 ≤ n) :
    countIdentity m prov e.provider_event_id
      (iterCalls m prov e n table gen).1 = 1
    ∧ (normalize_events m prov [e] table gen).newEvents.map
        (fun r => r.seq) = [maxSeq m table + 1]
    ∧ (∀ e2 : InEvent, e2.provider_event_id = "" →
        ∀ r ∈ (normalize_events m prov [e2] table gen).newEvents,
          r.provider_event_id ≠ "") := by
  have hpidb : (e.provider_event_id == "") = false := by
    simpa using hpid
  have hnew : hasIdentity table m prov e.provider_event_id = false :=
    (hasIdentity_false_iff table m prov e.provider_event_id).mpr h0
  refine ⟨?_, ?_, ?_⟩
  · obtain ⟨k, rfl⟩ : ∃ k, n = k + 1 := ⟨n - 1, by omega⟩
    have hr := normalize_events_insert m prov e table gen hpidb hnew
    have hcount1 : countIdentity m prov e.provider_event_id
        (table ++ [insertedRow m prov e table gen]) = 1 := by
      rw [countIdentity_append, h0, countIdentity_insertedRow]
    have hdup2 : hasIdentity (table ++ [insertedRow m prov e table gen])
        m prov e.provider_event_id = true := by
      cases hh : hasIdentity (table ++ [insertedRow m prov e table gen])
          m prov e.provider_event_id with
      | false =>
        have := (hasIdentity_false_iff _ m prov e.provider_event_id).mp hh
        omega
      | true => rfl
    rw [iterCalls, hr]
    rw [iterCalls_fixed m prov e k _ _ hpidb hdup2]
    exact hcount1
  · rw [normalize_events_insert m prov e table gen hpidb hnew]
    simp [insertedRow]
  · intro e2 he2 r hr
    have he2b : (e2.provider_event_id == "") = true := by
      simpa using he2
    cases hd : hasIdentity table m prov ("uuid:" ++ toString gen) with
    | true =>
      simp [normalize_events, normEventsGo, he2b, hd] at hr
    | false =>
      simp [normalize_events, normEventsGo, he2b, hd] at hr
      rw [hr]
      exact freshPid_ne_empty gen

/-- Witness for `normalize_events_idempotent`: three identical calls on an
empty table keep exactly one row. -/
theorem normalize_events_idempotent_witness :
    countIdentity 7 "espn" c3RealGoal.provider_event_id
      (iterCalls 7 "espn" c3RealGoal 3 [] 0).1 = 1
    ∧ (normalize_events 7 "espn" [c3RealGoal] [] 0).newEvents.map
        (fun r => r.seq) = [maxSeq 7 [] + 1] :=
  ⟨(normalize_events_idempotent 7 "espn" c3RealGoal [] 0 3 (by decide)
      (by decide) (by decide)).1,
   (normalize_events_idempotent 7 "espn" c3RealGoal [] 0 3 (by decide)
      (by decide) (by decide)).2.1⟩

/-- Folding Nat.max over 1..n from 0 yields n. -/
theorem foldl_max_range_one (n : Nat) :
    (List.range' 1 n).foldl Nat.max 0 = n := by
  induction n with
  | zero => rfl
  | succ k ih =>
    rw [List.range'_1_concat, List.foldl_append, ih]
    simp only [List.foldl_cons, List.foldl_nil]
    show max k (1 + k) = k + 1
    rw [max_eq_right (by omega)]
    omega

/-- seqsOf distributes over table append. -/
theorem seqsOf_append (m : Nat) (t1 t2 : List EventRow) :
    seqsOf m (t1 ++ t2) = seqsOf m t1 ++ seqsOf m t2 := by
  simp [seqsOf, List.filter_append]

/-- On a table whose per-match seqs are 1..n, the next-seq query answers
n. -/
theorem maxSeq_of_range (m : Nat) (table : List EventRow) (n : Nat)
    (h : seqsOf m table = List.range' 1 n) : maxSeq m table = n := by
  rw [maxSeq, h]
  exact foldl_max_range_one n

/-- Appending one row of the match with seq = n + 1 extends 1..n to
1..n+1. -/
theorem seqsOf_snoc_row (m : Nat) (table : List EventRow) (n : Nat)
    (row : EventRow) (hmid : row.match_id = m) (hseq : row.seq = n + 1)
    (h : seqsOf m table = List.range' 1 n) :
    seqsOf m (table ++ [row]) = List.range' 1 (n + 1) := by
  rw [seqsOf_append, h, List.range'_1_concat, Nat.add_comm 1 n]
  congr 1
  simp [seqsOf, hmid, hseq]

/-- Each event the normalize_events loop accepts is assigned
seq = max + 1, so a gapless per-match seq list 1..n grows to 1..n+k where
k is the number of newly inserted rows. -/
theorem normEventsGo_seqs (m : Nat) (prov : String) :
    ∀ (events : List InEvent) (table acc : List EventRow) (gen n : Nat),
    seqsOf m table = List.range' 1 n →
    ∃ k, (normEventsGo m prov events table acc gen).2.1.length
        = acc.length + k
      ∧ seqsOf m (normEventsGo m prov events table acc gen).1
          = List.range' 1 (n + k) := by
  intro events
  induction events with
  | nil =>
    intro table acc gen n h
    refine ⟨0, by simp [normEventsGo], ?_⟩
    simpa [normEventsGo] using h
  | cons e rest ih =>
    intro table acc gen n h
    cases hpe : e.provider_event_id == "" with
    | true =>
      cases hd : hasIdentity table m prov ("uuid:" ++ toString gen) with
      | true =>
        simp only [normEventsGo, hpe, hd, if_true]
        exact ih table acc (gen + 1) n h
      | false =>
        simp only [normEventsGo, hpe, hd, if_true, if_false,
          Bool.false_eq_true]
        have hseq2 := seqsOf_snoc_row m table n
          { rid := gen + 1, match_id := m, event_type := e.event_type,
            minute := e.minute, team_id := e.team_id,
            score_home := e.score_home, score_away := e.score_away,
            synthetic := e.synthetic, source_provider := some prov,
            provider_event_id := "uuid:" ++ toString gen,
            seq := maxSeq m table + 1 }
          rfl (by rw [maxSeq_of_range m table n h]) h
        obtain ⟨k, hk1, hk2⟩ := ih (table ++
          [{ rid := gen + 1, match_id := m, event_type := e.event_type,
             minute := e.minute, team_id := e.team_id,
             score_home := e.score_home, score_away := e.score_away,
             synthetic := e.synthetic, source_provider := some prov,
             provider_event_id := "uuid:" ++ toString gen,
             seq := maxSeq m table + 1 }])
          (acc ++
           [{ rid := gen + 1, match_id := m, event_type := e.event_type,
              minute := e.minute, team_id := e.team_id,
              score_home := e.score_home, score_away := e.score_away,
              synthetic := e.synthetic, source_provider := some prov,
              provider_event_id := "uuid:" ++ toString gen,
              seq := maxSeq m table + 1 }])
          (gen + 1 + 1) (n + 1) hseq2
        refine ⟨k + 1, ?_, ?_⟩
        · rw [hk1]
          simp only [List.length_append, List.length_cons, List.length_nil]
          omega
        · rw [hk2]
          congr 1
          omega
    | false =>
      cases hd : hasIdentity table m prov e.provider_event_id with
      | true =>
        simp only [normEventsGo, hpe, hd, if_true, if_false,
          Bool.false_eq_true]
        exact ih table acc gen n h
      | false =>
        simp only [normEventsGo, hpe, hd, if_true, if_false,
          Bool.false_eq_true]
        have hseq2 := seqsOf_snoc_row m table n
          { rid := gen, match_id := m, event_type := e.event_type,
            minute := e.minute, team_id := e.team_id,
            score_home := e.score_home, score_away := e.score_away,
            synthetic := e.synthetic, source_provider := some prov,
            provider_event_id := e.provider_event_id,
            seq := maxSeq m table + 1 }
          rfl (by rw [maxSeq_of_range m table n h]) h
        obtain ⟨k, hk1, hk2⟩ := ih (table ++
          [{ rid := gen, match_id := m, event_type := e.event_type,
             minute := e.minute, team_id := e.team_id,
             score_home := e.score_home, score_away := e.score_away,
             synthetic := e.synthetic, source_provider := some prov,
             provider_event_id := e.provider_event_id,
             seq := maxSeq m table + 1 }])
          (acc ++
           [{ rid := gen, match_id := m, event_type := e.event_type,
              minute := e.minute, team_id := e.team_id,
              score_home := e.score_home, score_away := e.score_away,
              synthetic := e.synthetic, source_provider := some prov,
              provider_event_id := e.provider_event_id,
              seq := maxSeq m table + 1 }])
          (gen + 1) (n + 1) hseq2
        refine ⟨k + 1, ?_, ?_⟩
        · rw [hk1]
          simp only [List.length_append, List.length_cons, List.length_nil]
          omega
        · rw [hk2]
          congr 1
          omega

/-- The reconcile fold only ever deletes rows from the table. -/
theorem reconcileFold_sublist (synths : List EventRow) :
    ∀ (realEvents : List InEvent) (p : List EventRow × Nat)
      (base : List EventRow),
    p.1.Sublist base →
    ((realEvents.foldl (reconcileStep synths) p).1).Sublist base := by
  intro realEvents
  induction realEvents with
  | nil =>
    intro p base h
    exact h
  | cons real rest ih =>
    intro p base h
    rw [List.foldl_cons]
    apply ih
    cases hf : synths.find? (fun s => eventsMatchChk real s) with
    | none => simpa [reconcileStep, hf] using h
    | some s =>
      simp only [reconcileStep, hf]
      exact List.Sublist.trans (List.filter_sublist _) h

/-- reconcile returns a sublist of the input table. -/
theorem reconcile_sublist (m : Nat) (realEvents : List InEvent)
    (table : List EventRow) :
    ((reconcile m realEvents table).1).Sublist table := by
  unfold reconcile
  split
  · exact List.Sublist.refl table
  · dsimp only
    split
    · exact List.Sublist.refl table
    · exact reconcileFold_sublist _ realEvents (table, 0) table
        (List.Sublist.refl table)

/-- seqsOf is monotone under table sublists. -/
theorem seqsOf_sublist (m : Nat) (t1 t2 : List EventRow)
    (h : t1.Sublist t2) : (seqsOf m t1).Sublist (seqsOf m t2) :=
  List.Sublist.map _ (List.Sublist.filter _ h)

/-- C3 amended: rows inserted by normalize_events are assigned
seq = per-match max + 1, so when the per-match seq list is the gapless
1..n it stays gapless, growing to 1..n+k for the k newly inserted rows;
and Builder deletion (reconcile) only removes rows, preserving the
strictly increasing order of the surviving per-match seq list. (The
gapless form can still be broken by Builder-persisted synthetic rows,
which take the ORM default seq = 0, and deletion can leave gaps.) -/
theorem normalize_events_seq_amended (m : Nat) (prov : String)
    (events : List InEvent) (table : List EventRow) (gen n : Nat)
    (h : seqsOf m table = List.range' 1 n) :
    seqsOf m (normalize_events m prov events table gen).table
      = List.range' 1
          (n + (normalize_events m prov events table gen).newEvents.length)
    ∧ ∀ realEvents : List InEvent,
        ((reconcile m realEvents table).1).Sublist table
        ∧ List.Pairwise (fun a b => a < b)
            (seqsOf m ((reconcile m realEvents table).1)) := by
  constructor
  · obtain ⟨k, hk1, hk2⟩ := normEventsGo_seqs m prov events table [] gen n h
    have hlen : (normalize_events m prov events table gen).newEvents.length
        = k := by
      simpa [normalize_events] using hk1
    rw [hlen]
    simpa [normalize_events] using hk2
  · intro realEvents
    refine ⟨reconcile_sublist m realEvents table, ?_⟩
    refine List.Pairwise.sublist
      (seqsOf_sublist m _ table (reconcile_sublist m realEvents table)) ?_
    rw [h]
    exact List.pairwise_lt_range' 1 n

/-- Witness for `normalize_events_seq_amended` on a concrete gapless
table. -/
theorem normalize_events_seq_amended_witness :
    seqsOf 7 (normalize_events 7 "espn" [c3RealGoal] c3TableB 5).table
      = List.range' 1
          (1 + (normalize_events 7 "espn" [c3RealGoal] c3TableB 5).newEvents.length) :=
  (normalize_events_seq_amended 7 "espn" [c3RealGoal] c3TableB 5 1
    (by decide)).1

/-- Membership in the subscription set survives a subscribe-loop step. -/
theorem subscribeStep_mem_preserved (subs : List String) (st : RStore)
    (c ch : String) (h : ch ∈ subs) :
    ch ∈ (subscribeStep (subs, st) c).1 := by
  simp only [subscribeStep]
  split
  · exact h
  · exact List.mem_append_left _ h

/-- The processed channel is in the subscription set after its step. -/
theorem subscribeStep_mem_self (subs : List String) (st : RStore)
    (c : String) : c ∈ (subscribeStep (subs, st) c).1 := by
  simp only [subscribeStep]
  split
  · next hc => exact List.elem_iff.mp hc
  · exact List.mem_append_right _ (by simp)

/-- Every requested channel (and every previous subscription) is in the
set produced by folding the subscribe loop. -/
theorem subscribeFold_mem (chans : List String) :
    ∀ (subs : List String) (st : RStore) (ch : String),
    ch ∈ chans ∨ ch ∈ subs →
    ch ∈ (chans.foldl subscribeStep (subs, st)).1 := by
  induction chans with
  | nil =>
    intro subs st ch h
    rcases h with h | h
    · simp at h
    · simpa using h
  | cons c rest ih =>
    intro subs st ch h
    rw [List.foldl_cons]
    have hstep : (subscribeStep (subs, st) c)
        = ((subscribeStep (subs, st) c).1, (subscribeStep (subs, st) c).2) := rfl
    rw [hstep]
    apply ih
    rcases h with h | h
    · rcases List.mem_cons.mp h with rfl | h2
      · exact Or.inr (subscribeStep_mem_self subs st ch)
      · exact Or.inl h2
    · exact Or.inr (subscribeStep_mem_preserved subs st c ch h)

/-- Every frame _send_replay emits is a snapshot or an events batch. -/
theorem sendReplay_shapes (matchId : String) (tier : Int) (st : RStore)
    (x : OutMsg) (hx : x ∈ sendReplay matchId tier st) :
    (∃ d, x = OutMsg.snap matchId tier d true)
    ∨ (∃ l, x = OutMsg.batch matchId 1 l true) := by
  unfold sendReplay at hx
  rcases List.mem_append.mp hx with h | h
  · split at h
    · next d _ =>
      left
      exact ⟨d, by simpa using h⟩
    · simp at h
  · split at h
    · split at h
      · split at h
        · simp at h
        · next l _ _ =>
          right
          exact ⟨l, by simpa using h⟩
      · simp at h
    · simp at h

/-- Every frame in the replay fold is a snapshot or an events batch. -/
theorem replaysFold_shapes (matchId : String) (st : RStore) :
    ∀ (tiers : List Int) (acc : List OutMsg),
    (∀ x ∈ acc, (∃ t d, x = OutMsg.snap matchId t d true)
      ∨ (∃ l, x = OutMsg.batch matchId 1 l true)) →
    ∀ x ∈ tiers.foldl (fun a tv => a ++ sendReplay matchId tv st) acc,
      (∃ t d, x = OutMsg.snap matchId t d true)
      ∨ (∃ l, x = OutMsg.batch matchId 1 l true) := by
  intro tiers
  induction tiers with
  | nil =>
    intro acc hacc x hx
    exact hacc x hx
  | cons tv rest ih =>
    intro acc hacc x hx
    rw [List.foldl_cons] at hx
    refine ih _ ?_ x hx
    intro y hy
    rcases List.mem_append.mp hy with h | h
    · exact hacc y h
    · rcases sendReplay_shapes matchId tv st y h with ⟨d, hd⟩ | ⟨l, hl⟩
      · exact Or.inl ⟨tv, d, hd⟩
      · exact Or.inr ⟨l, hl⟩

/-- C9 counterexample: a fresh connection subscribing with 26 duplicate
valid tier entries is rejected with the typed limit error — although the
resulting subscription set would have held a single channel, well within
the 25 limit — because the check counts requested channels with
multiplicity. -/
theorem subscription_limit_overcount_counterexample :
    c9Result.sent
      = [OutMsg.err "subscription_limit"
          "Maximum 25 subscriptions per connection"]
    ∧ c9Result.conn.subscriptions = []
    ∧ (requestChannels "m1" (List.replicate 26 0)).dedup.length = 1 := by
  decide

/-- C9 amended: with a valid match id, a subscribe whose current
subscription count plus requested valid channel count (with multiplicity)
exceeds 25 is rejected atomically — the connection state and the Redis
store are untouched and exactly the typed error frame is sent; a request
within that count bound gets every requested valid channel added; and no
branch of subscribe handling ever closes the connection. -/
theorem subscribe_limit_amended (uuidOk : String → Bool) (conn : WSConn)
    (matchId : String) (tiers : List Int) (st : RStore)
    (hok : uuidOk matchId = true) :
    (conn.subscriptions.length + (requestChannels matchId tiers).length
        > maxSubscriptionsPerConn →
      handleSubscribe uuidOk conn
          { match_id := some matchId, tiers := some tiers } st
        = { conn := conn, store := st,
            sent := [OutMsg.err "subscription_limit"
                      "Maximum 25 subscriptions per connection"] })
    ∧ (conn.subscriptions.length + (requestChannels matchId tiers).length
        ≤ maxSubscriptionsPerConn →
      ∀ ch ∈ requestChannels matchId tiers,
        ch ∈ (handleSubscribe uuidOk conn
          { match_id := some matchId, tiers := some tiers } st).conn.subscriptions)
    ∧ (∀ code, OutMsg.closeFrame code
        ∉ (handleSubscribe uuidOk conn
            { match_id := some matchId, tiers := some tiers } st).sent) := by
  refine ⟨fun hover => ?_, fun hunder => ?_, fun code => ?_⟩
  · simp only [requestChannels] at hover
    simp [handleSubscribe, hok, hover]
  · simp only [requestChannels] at hunder
    have hnot : ¬(conn.subscriptions.length
        + (tiers.filterMap (fun tv =>
            (Tier.ofIntOpt tv).map (fun t => channelFor matchId t))).length
        > maxSubscriptionsPerConn) := by omega
    simp only [requestChannels]
    simp only [handleSubscribe, hok, Bool.not_true, Bool.false_eq_true,
      if_false, Option.getD_some, hnot, ite_false]
    intro ch hch
    exact subscribeFold_mem _ conn.subscriptions st ch (Or.inl hch)
  · by_cases hover : conn.subscriptions.length
        + (tiers.filterMap (fun tv =>
            (Tier.ofIntOpt tv).map (fun t => channelFor matchId t))).length
        > maxSubscriptionsPerConn
    · simp [handleSubscribe, hok, hover]
    · simp only [handleSubscribe, hok, Bool.not_true, Bool.false_eq_true,
        if_false, Option.getD_some, hover, ite_false]
      intro hmem
      rcases List.mem_cons.mp hmem with h | h
      · simp at h
      · rcases replaysFold_shapes matchId _ tiers [] (by simp) _ h with
          ⟨t, d, hx⟩ | ⟨l, hx⟩ <;> simp at hx

/-- Witness for `subscribe_limit_amended`: the over-limit branch on the
concrete 26-duplicate request. -/
theorem subscribe_limit_amended_witness :
    handleSubscribe (fun _ => true) { subscriptions := [] } c9Msg []
      = { conn := { subscriptions := [] }, store := [],
          sent := [OutMsg.err "subscription_limit"
                    "Maximum 25 subscriptions per connection"] } :=
  (subscribe_limit_amended (fun _ => true) { subscriptions := [] } "m1"
    (List.replicate 26 0) [] rfl).1 (by decide)

/-- C10: a subscribe listing only a tier outside {0, 1, 2} with a valid
match id silently skips the invalid tier — the connection's subscriptions
and the Redis store (so every presence counter) are unchanged and no
error frame is sent — yet the replay still runs for the raw tier value,
falling back to the scoreboard snapshot, which is delivered tagged with
the invalid tier although the client subscribed to nothing. -/
theorem invalid_tier_replay (uuidOk : String → Bool) (conn : WSConn)
    (matchId : String) (t : Int) (st : RStore)
    (hok : uuidOk matchId = true)
    (hbad : Tier.ofIntOpt t = none)
    (hlim : conn.subscriptions.length ≤ maxSubscriptionsPerConn) :
    (handleSubscribe uuidOk conn
      { match_id := some matchId, tiers := some [t] } st).conn = conn
    ∧ (handleSubscribe uuidOk conn
        { match_id := some matchId, tiers := some [t] } st).store = st
    ∧ (∀ c s, OutMsg.err c s ∉ (handleSubscribe uuidOk conn
        { match_id := some matchId, tiers := some [t] } st).sent)
    ∧ (∀ d, rget st ("snap:match:" ++ matchId ++ ":scoreboard")
          = some (RVal.str d) →
        OutMsg.snap matchId t d true ∈ (handleSubscribe uuidOk conn
          { match_id := some matchId, tiers := some [t] } st).sent) := by
  have h0 : ¬t = 0 := fun h => by
    rw [h] at hbad
    exact absurd hbad (by decide)
  have h1 : ¬t = 1 := fun h => by
    rw [h] at hbad
    exact absurd hbad (by decide)
  have h2 : ¬t = 2 := fun h => by
    rw [h] at hbad
    exact absurd hbad (by decide)
  have hlt : ¬(maxSubscriptionsPerConn < conn.subscriptions.length) :=
    not_lt.mpr hlim
  have hname : tierName t = "scoreboard" := by
    simp [tierName, h0, h1, h2]
  have hres : handleSubscribe uuidOk conn
      { match_id := some matchId, tiers := some [t] } st
      = { conn := conn, store := st,
          sent := OutMsg.stateMsg conn.subscriptions
            :: sendReplay matchId t st } := by
    simp [handleSubscribe, hok, hbad, hlt]
  refine ⟨?_, ?_, ?_, ?_⟩
  · rw [hres]
  · rw [hres]
  · intro c s
    rw [hres]
    intro hmem
    rcases List.mem_cons.mp hmem with h | h
    · simp at h
    · rcases sendReplay_shapes matchId t st _ h with ⟨d, hx⟩ | ⟨l, hx⟩ <;>
        simp at hx
  · intro d hd
    have hkey : ("snap:match:" ++ matchId ++ ":" ++ "scoreboard")
        = ("snap:match:" ++ matchId ++ ":scoreboard") := by
      rw [String.append_assoc]
      congr 1
    have hfirst : redisGet st ("snap:match:" ++ matchId ++ ":" ++ tierName t)
        = Except.ok (some d) := by
      rw [hname, hkey]
      simp [redisGet, hd]
    have ht1 : (t == 1) = false := by
      simpa using h1
    have hreplay : sendReplay matchId t st
        = [OutMsg.snap matchId t d true] := by
      simp only [sendReplay]
      rw [hfirst]
      simp [ht1]
    rw [hres, hreplay]
    simp

/-- Witness for `invalid_tier_replay`: tier 5 on a store holding only a
scoreboard snapshot still gets that snapshot delivered, tagged tier 5. -/
theorem invalid_tier_replay_witness :
    OutMsg.snap "m1" 5 "SB" true ∈ (handleSubscribe (fun _ => true)
      { subscriptions := [] } { match_id := some "m1", tiers := some [5] }
      c10Store).sent :=
  (invalid_tier_replay (fun _ => true) { subscriptions := [] } "m1" 5
    c10Store rfl (by decide) (by decide)).2.2.2 "SB" (by decide)

end LiveView
